import Mathlib

/-
Shallow embedding of the Strands/GenU conversion utilities:
the message converter, the attachment resolver and format mapper, and the
stateful streaming event processor, together with theorems about their
behaviour.
-/

set_option maxHeartbeats 1000000

/-- JavaScript regex whitespace class: the characters matched by a backslash-s
class in an ECMAScript regular expression (also the set trimmed by trim). -/
def isJsWhitespace (c : Char) : Bool :=
  c = '\t' || c = '\n' || c = '\x0b' || c = '\x0c' || c = '\r' || c = ' ' ||
  c = '\u00A0' || c = '\u1680' || (0x2000 ≤ c.toNat && c.toNat ≤ 0x200A) ||
  c = '\u2028' || c = '\u2029' || c = '\u202F' || c = '\u205F' || c = '\u3000' ||
  c = '\uFEFF'

/-- JavaScript trim: removes leading and trailing whitespace. -/
def trimJS (s : String) : String :=
  String.mk (((s.toList.dropWhile isJsWhitespace).reverse.dropWhile isJsWhitespace).reverse)

/-- JavaScript startsWith on strings, modelled on character lists. -/
def strStartsWith (s pre : String) : Bool :=
  List.isPrefixOf pre.toList s.toList

/-- A record of the uploaded-file list: an s3Url locator and an optional cached
base64 payload (field base64EncodedData of UploadedFileType). -/
structure UploadedFileType where
  s3Url : String
  base64EncodedData : Option String := none
deriving DecidableEq

/-- The source part of an ExtraData attachment descriptor: a tag (the string
base64 or s3), a MIME media type, and the data (inline base64 or a locator). -/
structure ExtraDataSource where
  type : String
  mediaType : String
  data : String
deriving DecidableEq

/-- An attachment descriptor: a kind tag (image, file or video), a display
name, and a binary source. -/
structure ExtraData where
  type : String
  name : String
  source : ExtraDataSource
deriving DecidableEq

/-- A generic (GenU) message: role, plain-text content and an optional list of
attachment descriptors. -/
structure UnrecordedMessage where
  role : String
  content : String
  extraData : Option (List ExtraData) := none
deriving DecidableEq

/-- A Strands provider content block: the tagged union over text, image,
document and video, with the format as an optional enumeration value
(None models the undefined format of an unmapped MIME type). -/
inductive StrandsContentBlock where
  | text (text : String)
  | image (format : Option String) (bytes : String)
  | document (format : Option String) (name : String) (bytes : String)
  | video (format : Option String) (bytes : String)
deriving DecidableEq

/-- A Strands provider message: role plus an ordered list of content blocks. -/
structure StrandsMessage where
  role : String
  content : List StrandsContentBlock
deriving DecidableEq

/-- JavaScript toLowerCase as far as this module needs it: characterwise
lowering (ASCII letters are what the MIME tables compare). -/
def toLowerJS (s : String) : String :=
  String.mk (s.toList.map Char.toLower)

/-- The image MIME lookup table of getImageFormatFromMimeType, keyed after
lowercasing the MIME type; a miss models the undefined format. -/
def getImageFormatFromMimeType (mimeType : String) : Option String :=
  List.lookup (toLowerJS mimeType)
    [("image/png", "png"), ("image/jpeg", "jpeg"), ("image/jpg", "jpeg"),
     ("image/gif", "gif"), ("image/webp", "webp")]

/-- The document MIME lookup table of getDocumentFormatFromMimeType. -/
def getDocumentFormatFromMimeType (mimeType : String) : Option String :=
  List.lookup (toLowerJS mimeType)
    [("application/pdf", "pdf"), ("text/csv", "csv"),
     ("application/msword", "doc"),
     ("application/vnd.openxmlformats-officedocument.wordprocessingml.document", "docx"),
     ("application/vnd.ms-excel", "xls"),
     ("application/vnd.openxmlformats-officedocument.spreadsheetml.sheet", "xlsx"),
     ("text/html", "html"), ("text/plain", "txt"), ("text/markdown", "md")]

/-- The video MIME lookup table of getVideoFormatFromMimeType. -/
def getVideoFormatFromMimeType (mimeType : String) : Option String :=
  List.lookup (toLowerJS mimeType)
    [("video/x-flv", "flv"), ("video/x-matroska", "mkv"),
     ("video/quicktime", "mov"), ("video/mpeg", "mpeg"), ("video/mp4", "mp4"),
     ("video/3gpp", "three_gp"), ("video/webm", "webm"),
     ("video/x-ms-wmv", "wmv")]

/-- Suffix of a character list after its last comma, when the list has one. -/
def afterLastComma : List Char → Option (List Char)
  | [] => none
  | c :: rest =>
    match afterLastComma rest with
    | some r => some r
    | none => if c = ',' then some rest else none

/-- The replace of the anchored regex that deletes a leading data-colon
segment optionally followed by a greedy dot-star and a comma: when the string
begins with the five characters of a data URL head, drop them and, when a
comma occurs before the first newline, also drop everything through the last
such comma (the dot of the regex does not match a newline and the star is
greedy). Otherwise the string is unchanged. -/
def stripDataUrl (s : String) : String :=
  match s.toList with
  | 'd' :: 'a' :: 't' :: 'a' :: ':' :: rest =>
    let pre := rest.takeWhile fun c => c ≠ '\n'
    let post := rest.dropWhile fun c => c ≠ '\n'
    match afterLastComma pre with
    | some r => String.mk (r ++ post)
    | none => String.mk rest
  | _ => s

/-- The base64-resolution step at the head of
convertExtraDataToStrandsContentBlock: an inline base64 source is used
verbatim; an s3 source is resolved by first searching the uploaded-file list
for a record with the same s3Url and taking its cached payload when present,
otherwise falling back to the locator-keyed cache, stripping a data-URL head
from the retrieved value in either path; any other source tag resolves to
nothing (the JavaScript leaves base64Data undefined). -/
def resolveBase64Data (data : ExtraData) (uploadedFiles : Option (List UploadedFileType))
    (base64Cache : Option (List (String × String))) : Option String :=
  if data.source.type = "base64" then
    some data.source.data
  else if data.source.type = "s3" then
    match ((uploadedFiles.getD []).find? fun u => u.s3Url == data.source.data).bind
        fun u => u.base64EncodedData with
    | some payload => some (stripDataUrl payload)
    | none => ((base64Cache.getD []).lookup data.source.data).map stripDataUrl
  else
    none

/-- convertExtraDataToStrandsContentBlock: resolve the base64 bytes; a missing
or empty payload (both falsy in JavaScript) produces no block; otherwise the
descriptor kind selects the block shape, with the format looked up from the
kind-appropriate MIME table and an unsupported kind producing no block. -/
def convertExtraDataToStrandsContentBlock (data : ExtraData)
    (uploadedFiles : Option (List UploadedFileType))
    (base64Cache : Option (List (String × String))) : Option StrandsContentBlock :=
  match resolveBase64Data data uploadedFiles base64Cache with
  | none => none
  | some base64Data =>
    if base64Data = "" then none
    else if data.type = "image" then
      some (StrandsContentBlock.image (getImageFormatFromMimeType data.source.mediaType) base64Data)
    else if data.type = "file" then
      some (StrandsContentBlock.document (getDocumentFormatFromMimeType data.source.mediaType)
        data.name base64Data)
    else if data.type = "video" then
      some (StrandsContentBlock.video (getVideoFormatFromMimeType data.source.mediaType) base64Data)
    else none

/-- The per-message body of convertToStrandsFormat: a text block when the
content is truthy and trims to a non-empty string, the resolved attachment
blocks in order, and a fallback single text block holding the original
content when the list would otherwise be empty. -/
def convertMessage (uploadedFiles : Option (List UploadedFileType))
    (base64Cache : Option (List (String × String)))
    (message : UnrecordedMessage) : StrandsMessage :=
  let textBlocks : List StrandsContentBlock :=
    if message.content ≠ "" ∧ trimJS message.content ≠ "" then
      [StrandsContentBlock.text message.content]
    else []
  let extraBlocks : List StrandsContentBlock :=
    (message.extraData.getD []).filterMap fun d =>
      convertExtraDataToStrandsContentBlock d uploadedFiles base64Cache
  let contentBlocks := textBlocks ++ extraBlocks
  { role := message.role,
    content :=
      if contentBlocks.length = 0 then [StrandsContentBlock.text message.content]
      else contentBlocks }

/-- convertToStrandsFormat: map the per-message conversion over the input. -/
def convertToStrandsFormat (messages : List UnrecordedMessage)
    (uploadedFiles : Option (List UploadedFileType))
    (base64Cache : Option (List (String × String))) : List StrandsMessage :=
  messages.map (convertMessage uploadedFiles base64Cache)

/-- Whether a character is kept unchanged by the file-name sanitizer: the
negated regex class keeps ASCII letters, digits, regex whitespace, hyphen,
parentheses and square brackets. -/
def isFileNameSafeChar (c : Char) : Bool :=
  ('a' ≤ c && c ≤ 'z') || ('A' ≤ c && c ≤ 'Z') || ('0' ≤ c && c ≤ '9') ||
  isJsWhitespace c || c = '-' || c = '(' || c = ')' || c = '[' || c = ']'

/-- The file-name sanitization of convertFileToStrandsContentBlock: every
character outside the kept class is replaced by the placeholder letter X. -/
def sanitizeFileName (name : String) : String :=
  String.mk (name.toList.map fun c => if isFileNameSafeChar c then c else 'X')

/-- A browser File handle as far as this module reads it: a name and a
declared MIME type (the byte payload arrives separately as base64). -/
structure JsFile where
  name : String
  type : String
deriving DecidableEq

/-- convertFileToStrandsContentBlock: classify by MIME-type head (image,
video, otherwise document); only the document branch carries the sanitized
file name. -/
def convertFileToStrandsContentBlock (file : JsFile) (base64Data : String) :
    Option StrandsContentBlock :=
  let mimeType := file.type
  let fileName := sanitizeFileName file.name
  if strStartsWith mimeType "image/" then
    some (StrandsContentBlock.image (getImageFormatFromMimeType mimeType) base64Data)
  else if strStartsWith mimeType "video/" then
    some (StrandsContentBlock.video (getVideoFormatFromMimeType mimeType) base64Data)
  else
    some (StrandsContentBlock.document (getDocumentFormatFromMimeType mimeType)
      fileName base64Data)

/-- The content-block kinds tracked by the stream processor. -/
inductive ContentBlockType where
  | text
  | toolUse
  | reasoning
deriving DecidableEq

/-- The mutable state of a StrandsStreamProcessor instance: the current
content-block kind (None models the null initial value) and the accumulated
tool-argument buffer. -/
structure ProcessorState where
  currentContentBlockType : Option ContentBlockType := none
  toolUseBuffer : String := ""
deriving DecidableEq

/-- The token-usage payload of a metadata event. -/
structure StrandsUsage where
  inputTokens : Nat
  outputTokens : Nat
  totalTokens : Nat
  cacheReadInputTokens : Option Nat := none
  cacheWriteInputTokens : Option Nat := none
deriving DecidableEq

/-- A metadata frame payload. -/
structure MetadataEvent where
  usage : StrandsUsage
deriving DecidableEq

/-- The metadata record placed on a processor output. -/
structure Metadata where
  usage : StrandsUsage
deriving DecidableEq

/-- The tool-use part of a content-block-start payload. -/
structure ToolUseStart where
  name : String
deriving DecidableEq

/-- The start payload of a content-block-start frame; each field is optional
because the JavaScript dispatches on key presence and truthiness. -/
structure BlockStartPayload where
  text : Option String := none
  toolUse : Option ToolUseStart := none
deriving DecidableEq

/-- The wrapper object of a content-block-start frame. -/
structure ContentBlockStartEvent where
  start : BlockStartPayload
deriving DecidableEq

/-- The tool-use part of a content-block-delta payload. -/
structure ToolUseDelta where
  input : String
deriving DecidableEq

/-- The reasoning part of a content-block-delta payload. -/
structure ReasoningContentDelta where
  text : Option String := none
deriving DecidableEq

/-- The delta payload of a content-block-delta frame. -/
structure BlockDelta where
  text : Option String := none
  toolUse : Option ToolUseDelta := none
  reasoningContent : Option ReasoningContentDelta := none
deriving DecidableEq

/-- The wrapper object of a content-block-delta frame. -/
structure ContentBlockDeltaEvent where
  delta : BlockDelta
deriving DecidableEq

/-- A provider-reported exception payload with its optional message. -/
structure ErrorEvent where
  message : Option String := none
deriving DecidableEq

/-- A redact-content frame payload. -/
structure RedactContent where
  redactAssistantContentMessage : Option String := none
deriving DecidableEq

/-- A deserialized stream event: one optional field per frame variant,
mirroring the optional keys of the TypeScript StrandsStreamEvent (the two
boolean fields model the presence of the start and stop marker objects,
whose contents are never read). -/
structure StrandsStreamEvent where
  messageStart : Bool := false
  contentBlockStart : Option ContentBlockStartEvent := none
  contentBlockDelta : Option ContentBlockDeltaEvent := none
  contentBlockStop : Bool := false
  messageStop : Bool := false
  metadata : Option MetadataEvent := none
  internalServerException : Option ErrorEvent := none
  modelStreamErrorException : Option ErrorEvent := none
  serviceUnavailableException : Option ErrorEvent := none
  throttlingException : Option ErrorEvent := none
  validationException : Option ErrorEvent := none
  redactContent : Option RedactContent := none
deriving DecidableEq

/-- The output record of processEvent: text plus optional trace and
metadata. -/
structure ProcessorOutput where
  text : String
  trace : Option String := none
  metadata : Option Metadata := none
deriving DecidableEq

/-- The state written by reset: null block kind and empty tool buffer, also
the state of a freshly constructed processor. -/
def resetState : ProcessorState :=
  { currentContentBlockType := none, toolUseBuffer := "" }

/-- The disjunction chain selecting the first present error variant, in the
order of the source. -/
def firstErrorEvent (e : StrandsStreamEvent) : Option ErrorEvent :=
  match e.internalServerException with
  | some v => some v
  | none =>
    match e.modelStreamErrorException with
    | some v => some v
    | none =>
      match e.serviceUnavailableException with
      | some v => some v
      | none =>
        match e.throttlingException with
        | some v => some v
        | none => e.validationException

/-- The text of an error output: the message when supplied and non-empty
(JavaScript truthiness), otherwise the generic fallback. -/
def errorMessageText : Option String → String
  | some m => if m = "" then "An error occurred" else m
  | none => "An error occurred"

/-- The tool-use half of the content-block-start handler. -/
def handleStartToolUse (_s : ProcessorState) (st : BlockStartPayload) :
    Option (ProcessorState × Option ProcessorOutput) :=
  match st.toolUse with
  | some tu =>
    some ({ currentContentBlockType := some ContentBlockType.toolUse, toolUseBuffer := "" },
      some { text := "", trace := some ("```" ++ tu.name ++ "\n") })
  | none => none

/-- The content-block-start handler; a None result means the frame body
matched neither branch and execution falls through to the later checks. -/
def handleStart (s : ProcessorState) (st : BlockStartPayload) :
    Option (ProcessorState × Option ProcessorOutput) :=
  match st.text with
  | some t =>
    if t = "" then handleStartToolUse s st
    else
      some ({ s with currentContentBlockType := some ContentBlockType.text },
        some { text := t })
  | none => handleStartToolUse s st

/-- The reasoning third of the content-block-delta handler. -/
def handleDeltaReasoning (s : ProcessorState) (d : BlockDelta) :
    Option (ProcessorState × Option ProcessorOutput) :=
  match d.reasoningContent with
  | some rc =>
    match rc.text with
    | some t =>
      if t = "" then none
      else
        some ({ s with currentContentBlockType := some ContentBlockType.reasoning },
          some { text := "", trace := some t })
    | none => none
  | none => none

/-- The tool-use third of the content-block-delta handler; the delta input is
appended to the tool buffer and echoed on the trace channel. -/
def handleDeltaToolUse (s : ProcessorState) (d : BlockDelta) :
    Option (ProcessorState × Option ProcessorOutput) :=
  match d.toolUse with
  | some tu =>
    some ({ currentContentBlockType := some ContentBlockType.toolUse,
            toolUseBuffer := s.toolUseBuffer ++ tu.input },
      some { text := "", trace := some tu.input })
  | none => handleDeltaReasoning s d

/-- The content-block-delta handler; a None result means fall-through. -/
def handleDelta (s : ProcessorState) (d : BlockDelta) :
    Option (ProcessorState × Option ProcessorOutput) :=
  match d.text with
  | some t =>
    if t = "" then handleDeltaToolUse s d
    else
      some ({ s with currentContentBlockType := some ContentBlockType.text },
        some { text := t })
  | none => handleDeltaToolUse s d

/-- The redact-content check at the tail of processEvent, then the final
fallthrough returning null. -/
def stageRedact (s : ProcessorState) (e : StrandsStreamEvent) :
    ProcessorState × Option ProcessorOutput :=
  match e.redactContent with
  | some rc =>
    match rc.redactAssistantContentMessage with
    | some m => if m = "" then (s, none) else (s, some { text := m })
    | none => (s, none)
  | none => (s, none)

/-- The error-variant check of processEvent: a present error variant is
surfaced as a text record and the state is untouched. -/
def stageError (s : ProcessorState) (e : StrandsStreamEvent) :
    ProcessorState × Option ProcessorOutput :=
  match firstErrorEvent e with
  | some errorEvent => (s, some { text := "Error: " ++ errorMessageText errorEvent.message })
  | none => stageRedact s e

/-- The metadata check of processEvent: the usage fields are copied onto the
output record. -/
def stageMetadata (s : ProcessorState) (e : StrandsStreamEvent) :
    ProcessorState × Option ProcessorOutput :=
  match e.metadata with
  | some md =>
    (s, some { text := "",
               metadata := some { usage :=
                 { inputTokens := md.usage.inputTokens,
                   outputTokens := md.usage.outputTokens,
                   totalTokens := md.usage.totalTokens,
                   cacheReadInputTokens := md.usage.cacheReadInputTokens,
                   cacheWriteInputTokens := md.usage.cacheWriteInputTokens } } })
  | none => stageError s e

/-- The message-stop check of processEvent: reset and return null. -/
def stageMessageStop (s : ProcessorState) (e : StrandsStreamEvent) :
    ProcessorState × Option ProcessorOutput :=
  if e.messageStop then (resetState, none) else stageMetadata s e

/-- The content-block-stop check of processEvent: close the open block kind
(emitting the text newline or the trace fence close), always nulling the
current block kind and never touching the tool buffer. -/
def stageStop (s : ProcessorState) (e : StrandsStreamEvent) :
    ProcessorState × Option ProcessorOutput :=
  if e.contentBlockStop then
    match s.currentContentBlockType with
    | some ContentBlockType.text =>
      ({ s with currentContentBlockType := none }, some { text := "\n" })
    | some ContentBlockType.toolUse =>
      ({ s with currentContentBlockType := none }, some { text := "", trace := some "\n```\n" })
    | _ => ({ s with currentContentBlockType := none }, none)
  else stageMessageStop s e

/-- The content-block-delta check of processEvent. -/
def stageDelta (s : ProcessorState) (e : StrandsStreamEvent) :
    ProcessorState × Option ProcessorOutput :=
  match e.contentBlockDelta with
  | some cbd =>
    match handleDelta s cbd.delta with
    | some r => r
    | none => stageStop s e
  | none => stageStop s e

/-- The content-block-start check of processEvent. -/
def stageStart (s : ProcessorState) (e : StrandsStreamEvent) :
    ProcessorState × Option ProcessorOutput :=
  match e.contentBlockStart with
  | some cbs =>
    match handleStart s cbs.start with
    | some r => r
    | none => stageDelta s e
  | none => stageDelta s e

/-- processEvent of StrandsStreamProcessor as a pure transition function on
(state, parsed frame). The argument None models a frame whose text failed to
deserialize or that carries no event field: the surrounding try-catch makes
the call return null with the state untouched, never propagating an error.
A present event is dispatched through the sequential checks of the source. -/
def processEvent (s : ProcessorState) (parsed : Option StrandsStreamEvent) :
    ProcessorState × Option ProcessorOutput :=
  match parsed with
  | none => (s, none)
  | some e =>
    if e.messageStart then (resetState, none)
    else stageStart s e

/-- Fold processEvent over a list of parsed frames, collecting the per-frame
outputs in order. -/
def processEvents (s : ProcessorState) : List (Option StrandsStreamEvent) →
    ProcessorState × List (Option ProcessorOutput)
  | [] => (s, [])
  | e :: rest =>
    let r := processEvent s e
    let rs := processEvents r.1 rest
    (rs.1, r.2 :: rs.2)

/-- A content-block-start frame whose payload is a text start. -/
def startTextFrame (t : String) : StrandsStreamEvent :=
  { contentBlockStart := some { start := { text := some t } } }

/-- A content-block-start frame whose payload is a tool-use start. -/
def startToolUseFrame (toolName : String) : StrandsStreamEvent :=
  { contentBlockStart := some { start := { toolUse := some { name := toolName } } } }

/-- A content-block-delta frame carrying tool-use input. -/
def deltaToolUseFrame (input : String) : StrandsStreamEvent :=
  { contentBlockDelta := some { delta := { toolUse := some { input := input } } } }

/-- A content-block-stop frame. -/
def contentBlockStopFrame : StrandsStreamEvent :=
  { contentBlockStop := true }

/-- A message-start frame. -/
def messageStartFrame : StrandsStreamEvent :=
  { messageStart := true }

/-- A message-stop frame. -/
def messageStopFrame : StrandsStreamEvent :=
  { messageStop := true }

/-- A frame carrying the i-th error variant (internal-server, model-stream,
service-unavailable, throttling, validation in the order of the source; any
larger index also selects the validation variant). -/
def errorFrameOf (i : Nat) (m : Option String) : StrandsStreamEvent :=
  match i with
  | 0 => { internalServerException := some { message := m } }
  | 1 => { modelStreamErrorException := some { message := m } }
  | 2 => { serviceUnavailableException := some { message := m } }
  | 3 => { throttlingException := some { message := m } }
  | _ => { validationException := some { message := m } }

/-- Helper: the fallback branch of the converter makes the content list of a
message non-empty whatever the collected blocks were. -/
theorem fallback_content_ne_nil (l : List StrandsContentBlock) (c : String) :
    (if l.length = 0 then [StrandsContentBlock.text c] else l) ≠ [] := by
  by_cases h : l.length = 0
  · simp [h]
  · simp only [if_neg h]
    intro hc
    exact h (by simp [hc])

/-- Helper: every message produced by the per-message converter has a
non-empty content list. -/
theorem convertMessage_content_ne_nil (uf : Option (List UploadedFileType))
    (bc : Option (List (String × String))) (m : UnrecordedMessage) :
    (convertMessage uf bc m).content ≠ [] := by
  simp only [convertMessage]
  exact fallback_content_ne_nil _ _

/-- Claim C1: every provider message produced by convertToStrandsFormat has a
non-empty content-block list: non-blank text and resolved attachments are
used when present, and an otherwise-empty list degrades to a single text
block holding the original content, so the output content list is never
empty. -/
theorem convertToStrandsFormat_content_nonempty
    (messages : List UnrecordedMessage)
    (uploadedFiles : Option (List UploadedFileType))
    (base64Cache : Option (List (String × String)))
    (sm : StrandsMessage)
    (hmem : sm ∈ convertToStrandsFormat messages uploadedFiles base64Cache) :
    sm.content ≠ [] := by
  rw [convertToStrandsFormat] at hmem
  obtain ⟨m, -, rfl⟩ := List.mem_map.mp hmem
  exact convertMessage_content_ne_nil _ _ _

/-- Witness for C1 at a concrete all-empty input: the converter output for a
single message with empty content and no attachments. -/
theorem convertToStrandsFormat_content_nonempty_witness :
    ({ role := "user", content := [StrandsContentBlock.text ""] } : StrandsMessage).content ≠ [] :=
  convertToStrandsFormat_content_nonempty
    [{ role := "user", content := "", extraData := none }] none none
    { role := "user", content := [StrandsContentBlock.text ""] }
    (by decide)

/-- Claim C2: processing content-block-start (tool-use, name X), then
content-block-delta (tool-use, input s), then content-block-stop on a
processor whose block kind is none yields exactly the trace outputs opening
fence with X, then s, then closing fence, each paired with empty text, and
leaves the current block kind none. -/
theorem toolUse_roundTrip_trace (X s b : String) :
    (processEvents { currentContentBlockType := none, toolUseBuffer := b }
        [some (startToolUseFrame X), some (deltaToolUseFrame s),
         some contentBlockStopFrame]).2 =
      [some { text := "", trace := some ("```" ++ X ++ "\n") },
       some { text := "", trace := some s },
       some { text := "", trace := some "\n```\n" }] ∧
    (processEvents { currentContentBlockType := none, toolUseBuffer := b }
        [some (startToolUseFrame X), some (deltaToolUseFrame s),
         some contentBlockStopFrame]).1.currentContentBlockType = none := by
  constructor <;> rfl

/-- Claim C3: processEvent is a total function of (state, parse result): a
frame whose text does not deserialize (or carries no event field) is modelled
by the None input, for which the call returns null and leaves both state
components untouched — the try-catch contract that no error escapes. -/
theorem processEvent_malformed_frame (s : ProcessorState) :
    processEvent s none = (s, none) := rfl

/-- Counterexample for C4 as stated: a throttling frame whose message field is
supplied but empty yields the generic fallback text, not the error prefix
followed by the (empty) supplied message, because the source tests the
message with JavaScript truthiness. -/
theorem processEvent_error_empty_message_counterexample :
    (processEvent resetState
        (some { throttlingException := some { message := some "" } })).2 =
      some { text := "Error: An error occurred" } ∧
    ¬ (processEvent resetState
        (some { throttlingException := some { message := some "" } })).2 =
      some { text := "Error: " ++ "" } := by
  exact ⟨rfl, by decide⟩

/-- Claim C4 (amended): for every frame carrying one of the five error
variants, processEvent returns the error prefix followed by the message when
a non-empty message is supplied and the generic fallback when the message is
absent or empty, and the processor state is unchanged. -/
theorem processEvent_error_frames (i : Nat) (m : Option String) (s : ProcessorState) :
    processEvent s (some (errorFrameOf i m)) =
      (s, some { text := "Error: " ++
        (match m with
         | some msg => if msg = "" then "An error occurred" else msg
         | none => "An error occurred") }) := by
  rcases i with _ | _ | _ | _ | i <;> rcases m with _ | msg <;> rfl

/-- Claim C5: resolving an s3-source attachment first takes the cached payload
of the uploaded-file record whose locator matches, and otherwise falls back to
the locator-keyed cache mapping; a data-URL head is stripped from the
retrieved value on both paths, and in particular the cached value consisting
of a png data-URL head before the bytes QUJD resolves to QUJD. -/
theorem resolveBase64_s3_lookup :
    (∀ (d : ExtraData) (uf : Option (List UploadedFileType))
        (bc : Option (List (String × String))) (p : String),
      d.source.type = "s3" →
      (((uf.getD []).find? fun u => u.s3Url == d.source.data).bind
          fun u => u.base64EncodedData) = some p →
      resolveBase64Data d uf bc = some (stripDataUrl p)) ∧
    (∀ (d : ExtraData) (uf : Option (List UploadedFileType))
        (bc : Option (List (String × String))),
      d.source.type = "s3" →
      (((uf.getD []).find? fun u => u.s3Url == d.source.data).bind
          fun u => u.base64EncodedData) = none →
      resolveBase64Data d uf bc =
        ((bc.getD []).lookup d.source.data).map stripDataUrl) ∧
    stripDataUrl "data:image/png;base64,QUJD" = "QUJD" := by
  refine ⟨?_, ?_, by decide⟩
  · intro d uf bc p hs3 hfind
    simp [resolveBase64Data, hs3, hfind]
  · intro d uf bc hs3 hfind
    simp [resolveBase64Data, hs3, hfind]

/-- Witness for C5 at a concrete input: an uploaded-file record holding a
data-URL-prefixed payload for the matching locator. -/
theorem resolveBase64_s3_lookup_witness :
    resolveBase64Data
      { type := "image", name := "img",
        source := { type := "s3", mediaType := "image/png", data := "s3://bucket/key" } }
      (some [{ s3Url := "s3://bucket/key",
               base64EncodedData := some "data:image/png;base64,QUJD" }])
      none = some (stripDataUrl "data:image/png;base64,QUJD") :=
  resolveBase64_s3_lookup.1 _ _ none "data:image/png;base64,QUJD" rfl (by decide)

/-- Claim C6: whenever the bytes of an attachment resolve to a non-empty
payload, a block of the kind matching the descriptor is produced whose format
is exactly the (possibly missing) table lookup of the declared MIME type —
so an unmapped MIME type still yields a block, with no format value; the
image table has no entry for the bmp MIME type. -/
theorem unmapped_mime_still_block
    (d : ExtraData) (uf : Option (List UploadedFileType))
    (bc : Option (List (String × String))) (b : String)
    (hres : resolveBase64Data d uf bc = some b) (hb : b ≠ "") :
    (d.type = "image" → convertExtraDataToStrandsContentBlock d uf bc =
      some (StrandsContentBlock.image (getImageFormatFromMimeType d.source.mediaType) b)) ∧
    (d.type = "file" → convertExtraDataToStrandsContentBlock d uf bc =
      some (StrandsContentBlock.document (getDocumentFormatFromMimeType d.source.mediaType)
        d.name b)) ∧
    (d.type = "video" → convertExtraDataToStrandsContentBlock d uf bc =
      some (StrandsContentBlock.video (getVideoFormatFromMimeType d.source.mediaType) b)) ∧
    getImageFormatFromMimeType "image/bmp" = none := by
  refine ⟨?_, ?_, ?_, by decide⟩ <;> intro ht <;>
    simp [convertExtraDataToStrandsContentBlock, hres, hb, ht]

/-- Witness for C6 at a concrete input: an inline image attachment with the
unmapped bmp MIME type still becomes an image block (its format is the empty
lookup). -/
theorem unmapped_mime_still_block_witness :
    convertExtraDataToStrandsContentBlock
      { type := "image", name := "x",
        source := { type := "base64", mediaType := "image/bmp", data := "QUJD" } }
      none none =
      some (StrandsContentBlock.image (getImageFormatFromMimeType "image/bmp") "QUJD") :=
  (unmapped_mime_still_block
    { type := "image", name := "x",
      source := { type := "base64", mediaType := "image/bmp", data := "QUJD" } }
    none none "QUJD" rfl (by decide)).1 rfl

/-- Counterexample for C7 as stated: a content-block-start frame whose start
text is the empty string produces no output and leaves the state untouched
(the empty string is falsy, so the text branch is not taken and the frame
falls through every later check), rather than entering the text state and
returning an empty text record. -/
theorem contentBlockStart_empty_text_counterexample :
    processEvent resetState (some (startTextFrame "")) = (resetState, none) ∧
    ¬ processEvent resetState (some (startTextFrame "")) =
        ({ currentContentBlockType := some ContentBlockType.text, toolUseBuffer := "" },
         some { text := "" }) := by
  exact ⟨rfl, by decide⟩

/-- Claim C7 (amended): a content-block-start frame with a non-empty start
text sets the block kind to text and returns the start text; with an empty
start text (and no tool-use part) the frame yields no output and leaves the
state unchanged. -/
theorem contentBlockStart_text_behavior (s : ProcessorState) (t : String) :
    (t ≠ "" → processEvent s (some (startTextFrame t)) =
      ({ s with currentContentBlockType := some ContentBlockType.text },
       some { text := t })) ∧
    processEvent s (some (startTextFrame "")) = (s, none) := by
  constructor
  · intro ht
    simp [processEvent, startTextFrame, stageStart, handleStart, ht]
  · rfl

/-- Witness for C7 (amended) at a concrete input: a start frame carrying the
non-empty text hello on a fresh processor. -/
theorem contentBlockStart_text_behavior_witness :
    processEvent resetState (some (startTextFrame "hello")) =
      ({ currentContentBlockType := some ContentBlockType.text, toolUseBuffer := "" },
       some { text := "hello" }) :=
  (contentBlockStart_text_behavior resetState "hello").1 (by decide)

/-- Helper: each element of the zip of a mapped list with the original list
relates by the mapped function. -/
theorem zip_map_fst_eq (f : Char → Char) :
    ∀ (l : List Char), ∀ p ∈ (l.map f).zip l, p.1 = f p.2 := by
  intro l
  induction l with
  | nil => intro p hp; simp at hp
  | cons c rest ih =>
    intro p hp
    simp only [List.map_cons, List.zip_cons_cons, List.mem_cons] at hp
    rcases hp with rfl | hp
    · rfl
    · exact ih p hp

/-- Counterexample for C8 as stated: the sanitizer keeps a tab character (the
regex class keeps every regex-whitespace character, not only the space), so a
file name containing a tab reaches the document block unchanged instead of
having the tab replaced by the placeholder. -/
theorem document_name_tab_counterexample :
    convertFileToStrandsContentBlock { name := "a\tb", type := "text/plain" } "Zm9v" =
      some (StrandsContentBlock.document (some "txt") "a\tb" "Zm9v") ∧
    sanitizeFileName "a\tb" ≠ "aXb" := by
  exact ⟨by decide, by decide⟩

/-- Claim C8 (amended): a raw file whose MIME type starts with neither the
image nor the video head converts to a document block whose name is the
sanitized file name: same length as the original, each character kept when it
is an ASCII letter, digit, regex-whitespace character, hyphen, parenthesis or
square bracket, and replaced by the placeholder letter X otherwise. -/
theorem document_name_sanitization (file : JsFile) (b64 : String)
    (h1 : strStartsWith file.type "image/" = false)
    (h2 : strStartsWith file.type "video/" = false) :
    convertFileToStrandsContentBlock file b64 =
      some (StrandsContentBlock.document (getDocumentFormatFromMimeType file.type)
        (sanitizeFileName file.name) b64) ∧
    (sanitizeFileName file.name).toList.length = file.name.toList.length ∧
    (∀ p ∈ (sanitizeFileName file.name).toList.zip file.name.toList,
      (isFileNameSafeChar p.2 = true → p.1 = p.2) ∧
      (isFileNameSafeChar p.2 = false → p.1 = 'X')) := by
  refine ⟨?_, ?_, ?_⟩
  · simp [convertFileToStrandsContentBlock, h1, h2]
  · simp [sanitizeFileName]
  · intro p hp
    have h := zip_map_fst_eq (fun c => if isFileNameSafeChar c then c else 'X')
      file.name.toList p (by simpa [sanitizeFileName] using hp)
    constructor
    · intro hsafe; rw [h]; simp [hsafe]
    · intro hkept; rw [h]; simp [hkept]

/-- Witness for C8 (amended) at a concrete input: a plain-text file whose
name holds a plus sign. -/
theorem document_name_sanitization_witness :
    convertFileToStrandsContentBlock { name := "a+b", type := "text/plain" } "Zm9v" =
      some (StrandsContentBlock.document (getDocumentFormatFromMimeType "text/plain")
        (sanitizeFileName "a+b") "Zm9v") :=
  (document_name_sanitization { name := "a+b", type := "text/plain" } "Zm9v"
    (by decide) (by decide)).1

/-- Claim C9: a content-block-stop frame nulls only the current block kind and
never touches the tool buffer, while a tool-use start, a message-start, a
message-stop and an explicit reset all leave the buffer empty. -/
theorem contentBlockStop_state_effect (s : ProcessorState) (toolName : String) :
    (processEvent s (some contentBlockStopFrame)).1.currentContentBlockType = none ∧
    (processEvent s (some contentBlockStopFrame)).1.toolUseBuffer = s.toolUseBuffer ∧
    (processEvent s (some (startToolUseFrame toolName))).1.toolUseBuffer = "" ∧
    (processEvent s (some messageStartFrame)).1.toolUseBuffer = "" ∧
    (processEvent s (some messageStopFrame)).1.toolUseBuffer = "" ∧
    resetState.toolUseBuffer = "" := by
  obtain ⟨ct, buf⟩ := s
  refine ⟨?_, ?_, rfl, rfl, rfl, rfl⟩ <;>
    (rcases ct with - | c
     · rfl
     · cases c <;> rfl)

/-- Claim C10: an inline (base64) attachment whose data is the empty string
produces no content block, because the empty payload is falsy in the
resolution check exactly like an unresolved one. -/
theorem inline_empty_data_dropped (d : ExtraData)
    (uf : Option (List UploadedFileType)) (bc : Option (List (String × String)))
    (ht : d.source.type = "base64") (hd : d.source.data = "") :
    convertExtraDataToStrandsContentBlock d uf bc = none := by
  simp [convertExtraDataToStrandsContentBlock, resolveBase64Data, ht, hd]

/-- Witness for C10 at a concrete input: an inline image attachment carrying
an empty payload. -/
theorem inline_empty_data_dropped_witness :
    convertExtraDataToStrandsContentBlock
      { type := "image", name := "x",
        source := { type := "base64", mediaType := "image/png", data := "" } }
      none none = none :=
  inline_empty_data_dropped
    { type := "image", name := "x",
      source := { type := "base64", mediaType := "image/png", data := "" } }
    none none rfl rfl
